import Mathlib

/-!
Shallow embedding of the iced-note-editor application (src/src/main.rs):
a single-file Model-View-Update text editor. The embedding covers the
editor model, the message reducer (Editor::update), the startup state
(Editor::new), the pieces of the view projection the specification
constrains (status bar left side, save button enabling, highlighter
settings), and the asynchronous save_file helper with its environment
(dialog outcome, filesystem write outcome) passed explicitly.
-/

namespace IcedNote

/-- OS-level I/O error categories (std::io::ErrorKind in the source).
Only the tags the development needs are listed; the reducer never
inspects the tag, it only carries it. -/
inductive ErrorKind
  | notFound
  | permissionDenied
  | interrupted
  | other
deriving DecidableEq

/-- The application's error type (enum Error in the source): a cancelled
native dialog, or a filesystem failure carrying the OS error kind. -/
inductive Error
  | DialogClosed
  | IOFailed (kind : ErrorKind)
deriving DecidableEq

/-- Highlighter themes (iced highlighter::Theme). The source only ever
constructs SolarizedDark itself; the others come from the theme picker. -/
inductive HTheme
  | SolarizedDark
  | Base16Eighties
  | Base16Mocha
  | Base16Ocean
  | InspiredGitHub
deriving DecidableEq

/-- Cursor motions of the external text-editor widget
(iced text_editor::Motion). The payload is irrelevant to the reducer:
only the classification of the surrounding action matters. -/
inductive Motion
  | Left
  | Right
  | Up
  | Down
  | WordLeft
  | WordRight
  | Home
  | DocEnd
deriving DecidableEq

/-- Content-modifying sub-actions of the external text-editor widget
(iced text_editor::Edit). -/
inductive Edit
  | Insert (c : Char)
  | Paste (s : String)
  | Enter
  | Backspace
  | Delete
deriving DecidableEq

/-- Actions of the external text-editor widget (iced text_editor::Action).
Click and Drag coordinates are elided: the reducer never reads them. -/
inductive Action
  | Move (m : Motion)
  | Select (m : Motion)
  | SelectWord
  | SelectLine
  | Edit (e : Edit)
  | Click
  | Drag
  | Scroll (lines : Int)
deriving DecidableEq

/-- Classification of a content edit (iced Action::is_edit): exactly the
Edit variants mutate the stored character sequence. -/
def Action.is_edit : Action → Bool
  | Action.Edit _ => true
  | _ => false

/-- The editable text buffer (iced text_editor::Content), abstracted to
its full-text readout, the only part of its state the specification's
claims mention. -/
structure Content where
  text : String
deriving DecidableEq

/-- Content::new(): the empty buffer. -/
def Content.new : Content := { text := "" }

/-- Content::with(text): a buffer constructed from an initial string
(the source passes the loaded file contents). -/
def Content.withText (s : String) : Content := { text := s }

/-- Content.edit(action): apply a widget action to the buffer. The
widget's editing semantics are external to the repository; they are
modelled here in a simple executable way (insertions at the end of the
buffer, since the cursor is not tracked). Every claim depends only on
WHICH action classifies as an edit, never on the resulting text, except
through Content.withText above. Non-edit actions leave the text
unchanged, as the widget guarantees. -/
def Content.edit (c : Content) (a : Action) : Content :=
  match a with
  | Action.Edit (Edit.Insert ch) => { text := c.text.push ch }
  | Action.Edit (Edit.Paste s) => { text := c.text ++ s }
  | Action.Edit Edit.Enter => { text := c.text.push '\n' }
  | Action.Edit Edit.Backspace => { text := String.mk c.text.toList.dropLast }
  | Action.Edit Edit.Delete => c
  | _ => c

/-- The editor model (struct Editor in the source). Paths are modelled
as strings; every modelled path is valid UTF-8, so the source's
OsStr-to-str conversions always succeed in the model. -/
structure Editor where
  path : Option String
  content : Content
  error : Option Error
  theme : HTheme
  is_dirty : Bool
deriving DecidableEq

/-- Messages fed to the reducer (enum Message in the source). FileOpened
carries path and contents on success; FileSaved carries the path written. -/
inductive Message
  | Edit (a : Action)
  | New
  | Open
  | Save
  | FileSaved (r : Except Error String)
  | FileOpened (r : Except Error (String × String))
  | ThemeSelected (t : HTheme)

/-- Asynchronous commands the reducer can emit (the iced::Command values
built in Editor::update and Editor::new). saveFile carries the snapshot
of the path and the buffer text taken at issue time. -/
inductive Command
  | loadFile (path : String)
  | pickFile
  | saveFile (path : Option String) (text : String)
deriving DecidableEq

/-- Editor::update, the message reducer: from a model and a message,
the next model and at most one asynchronous command. Mirrors the match
in the source line by line. -/
def Editor.update (m : Editor) (msg : Message) : Editor × Option Command :=
  match msg with
  | Message.Edit a =>
      ({ m with
          is_dirty := m.is_dirty || a.is_edit
          error := none
          content := m.content.edit a }, none)
  | Message.New =>
      ({ m with
          path := none
          content := Content.new
          is_dirty := true }, none)
  | Message.Save =>
      (m, some (Command.saveFile m.path m.content.text))
  | Message.FileSaved (Except.ok p) =>
      ({ m with path := some p, is_dirty := false }, none)
  | Message.FileSaved (Except.error e) =>
      ({ m with error := some e }, none)
  | Message.Open =>
      (m, some Command.pickFile)
  | Message.FileOpened (Except.ok (p, s)) =>
      ({ m with
          path := some p
          content := Content.withText s
          is_dirty := false }, none)
  | Message.FileOpened (Except.error e) =>
      ({ m with error := some e }, none)
  | Message.ThemeSelected t =>
      ({ m with theme := t }, none)

/-- The default file loaded at startup (default_file in the source):
the program's own main.rs under the build-time manifest directory,
abstracted to a relative path. -/
def defaultFile : String := "./src/main.rs"

/-- Editor::new: the model constructed at startup, together with the
startup command loading the default file. -/
def Editor.init : Editor × Option Command :=
  ({ path := none
     content := Content.new
     error := none
     theme := HTheme.SolarizedDark
     is_dirty := true },
   some (Command.loadFile defaultFile))

/-- Last path component of a path, as a character list: everything after
the final slash (Path::file_name for the ordinary file paths at issue). -/
def fileNameChars (l : List Char) : List Char :=
  l.foldl (fun acc c => if c = '/' then [] else acc ++ [c]) []

/-- Split a file name at its LAST dot: some (stem, ext) when a dot
exists, none otherwise. -/
def splitExt : List Char → Option (List Char × List Char)
  | [] => none
  | c :: cs =>
      match splitExt cs with
      | some (stem, ext) => some (c :: stem, ext)
      | none => if c = '.' then some ([], cs) else none

/-- Path::extension of the Rust standard library, modelled for ordinary
file paths: the part of the file name after its last dot, provided the
part before that dot is nonempty (so a leading-dot name like .gitignore
has no extension). -/
def extension (p : String) : Option String :=
  match splitExt (fileNameChars p.toList) with
  | some (stem, ext) => if stem.isEmpty then none else some (String.mk ext)
  | none => none

/-- The extension handed to the highlighter in Editor::view:
path.extension()?.to_str(), with the literal fallback when the path or
its extension is absent. The source applies no case change. -/
def highlightExtension (m : Editor) : String :=
  (m.path.bind extension).getD "rs"

/-- The highlighter settings built in Editor::view: the selected theme
and the extension string. -/
def highlightSettings (m : Editor) : HTheme × String :=
  (m.theme, highlightExtension m)

/-- Lowercase an ASCII letter. Used only by the spec-worded variant of
the highlight extension below. -/
def charLower (c : Char) : Char :=
  if 65 ≤ c.toNat ∧ c.toNat ≤ 90 then Char.ofNat (c.toNat + 32) else c

/-- Lowercase a string, ASCII-wise. -/
def lowerStr (s : String) : String := String.mk (s.toList.map charLower)

/-- Modelled from the spec (section 4.3), for comparison with the code:
the LOWERCASED final extension of the path when present, otherwise the
literal default. The source's view builds highlightExtension instead,
which performs no lowercasing. -/
def specHighlightExtension (m : Editor) : String :=
  ((m.path.bind extension).map lowerStr).getD "rs"

/-- What the status bar's left side displays, as built in Editor::view:
the error's human-readable text when the stored error is an I/O failure,
otherwise the path string when a path is bound, otherwise the literal
new-file caption. -/
inductive StatusDisplay
  | errorText (kind : ErrorKind)
  | pathText (p : String)
  | newFile
deriving DecidableEq

/-- The status bar branch of Editor::view: an if-let on Some(IOFailed)
first, then a match on the path. -/
def statusLeft (m : Editor) : StatusDisplay :=
  match m.error with
  | some (Error.IOFailed k) => StatusDisplay.errorText k
  | _ =>
      match m.path with
      | some p => StatusDisplay.pathText p
      | none => StatusDisplay.newFile

/-- The save button's on-press message in Editor::view:
is_dirty.then_some(Message::Save). -/
def saveOnPress (m : Editor) : Option Message :=
  if m.is_dirty then some Message.Save else none

/-- A toolbar button is enabled exactly when its on-press message is
present (action() in the source renders a Secondary, message-less button
otherwise). -/
def saveEnabled (m : Editor) : Bool :=
  (saveOnPress m).isSome

/-- save_file from the source, with its environment made explicit:
dialogPick is the outcome of the native save dialog (none = cancelled),
consulted only when no path is bound; writeOutcome is the outcome of the
filesystem write (some k = failed with OS error kind k). The source
DISCARDS the write outcome (the map_err result is let-bound to nothing)
and returns Ok(path) unconditionally once a path is resolved; the
discard is reproduced faithfully here. -/
def save_file (path : Option String) (text : String)
    (dialogPick : Option String) (writeOutcome : Option ErrorKind) :
    Except Error String :=
  match path with
  | some p =>
      let _ := (writeOutcome.map Error.IOFailed, text)
      Except.ok p
  | none =>
      match dialogPick with
      | none => Except.error Error.DialogClosed
      | some p =>
          let _ := (writeOutcome.map Error.IOFailed, text)
          Except.ok p

/-- Concrete sample model: fresh, clean, empty, no path, no error. -/
def cleanModel : Editor :=
  { path := none, content := Content.new, error := none,
    theme := HTheme.SolarizedDark, is_dirty := false }

/-- Concrete sample model: a clean buffer bound to a markdown path. -/
def mdModel : Editor :=
  { path := some "/tmp/a.md", content := Content.new, error := none,
    theme := HTheme.SolarizedDark, is_dirty := false }

/-- Concrete sample model: a bound path with a stored not-found error. -/
def errModel : Editor :=
  { path := some "/tmp/a.md", content := Content.new,
    error := some (Error.IOFailed ErrorKind.notFound),
    theme := HTheme.SolarizedDark, is_dirty := false }

/-- Concrete sample model: a dirty buffer with a stored permission error. -/
def dirtyErrModel : Editor :=
  { path := some "/tmp/a", content := Content.withText "x",
    error := some (Error.IOFailed ErrorKind.permissionDenied),
    theme := HTheme.SolarizedDark, is_dirty := true }

/-- Concrete sample model: a clean buffer bound to an uppercase-extension
path. -/
def upperModel : Editor :=
  { path := some "notes.RS", content := Content.new, error := none,
    theme := HTheme.SolarizedDark, is_dirty := false }

/-- C1 counterexample: the claim says FileOpened(Err(DialogClosed)) leaves
the model unchanged and never stores DialogClosed in the error field. On a
clean model with no error, the source's reducer (whose Err arm does not
distinguish DialogClosed from IOFailed) stores DialogClosed, changing the
model; likewise for FileSaved. -/
theorem C1_counterexample :
    ((cleanModel.update (Message.FileOpened (Except.error Error.DialogClosed))).1 ≠
      cleanModel) ∧
    ((cleanModel.update (Message.FileOpened (Except.error Error.DialogClosed))).1.error =
      some Error.DialogClosed) ∧
    ((cleanModel.update (Message.FileSaved (Except.error Error.DialogClosed))).1.error =
      some Error.DialogClosed) := by
  decide

/-- C1 (amended): reducing FileOpened(Err(DialogClosed)) or
FileSaved(Err(DialogClosed)) stores DialogClosed in the model's error
field, leaves path, content, is_dirty and theme unchanged, and emits no
command; the stored DialogClosed is never displayed, since the status bar
shows only IOFailed errors. -/
theorem C1_theorem (m : Editor) :
    ((m.update (Message.FileOpened (Except.error Error.DialogClosed))).1 =
        { m with error := some Error.DialogClosed } ∧
      (m.update (Message.FileOpened (Except.error Error.DialogClosed))).2 = none) ∧
    ((m.update (Message.FileSaved (Except.error Error.DialogClosed))).1 =
        { m with error := some Error.DialogClosed } ∧
      (m.update (Message.FileSaved (Except.error Error.DialogClosed))).2 = none) ∧
    (∀ k, statusLeft (m.update (Message.FileOpened (Except.error Error.DialogClosed))).1 ≠
      StatusDisplay.errorText k) ∧
    (∀ k, statusLeft (m.update (Message.FileSaved (Except.error Error.DialogClosed))).1 ≠
      StatusDisplay.errorText k) := by
  refine ⟨⟨rfl, rfl⟩, ⟨rfl, rfl⟩, ?_, ?_⟩ <;>
    · intro k
      cases h : m.path <;> simp [Editor.update, statusLeft, h]

/-- C1 witness: at a concrete model with a bound path, the stored
DialogClosed does not surface as error text in the status bar. -/
theorem C1_witness :
    statusLeft ((mdModel.update
        (Message.FileOpened (Except.error Error.DialogClosed))).1) ≠
      StatusDisplay.errorText ErrorKind.notFound :=
  (C1_theorem mdModel).2.2.1 ErrorKind.notFound

/-- C2: the source's save_file discards the filesystem write outcome and
returns Ok(path); with the write failing with PermissionDenied it still
completes as Ok, and the reducer on that Ok clears is_dirty and leaves any
error field untouched, contradicting the claim (which the specification
itself marks as the intended behaviour against a source bug). -/
theorem C2_theorem :
    save_file (some "/tmp/notes.txt") "hello" none (some ErrorKind.permissionDenied) =
      Except.ok "/tmp/notes.txt" ∧
    (∀ m : Editor,
      (m.update (Message.FileSaved (Except.ok "/tmp/notes.txt"))).1.is_dirty = false ∧
      (m.update (Message.FileSaved (Except.ok "/tmp/notes.txt"))).1.error = m.error) :=
  ⟨rfl, fun _ => ⟨rfl, rfl⟩⟩

/-- C3 counterexample: the claim says FileOpened(Ok) clears any previously
stored error. Starting from a model whose error field holds IOFailed,
the source's Ok arm never touches the error field, so it stays set. -/
theorem C3_counterexample :
    (errModel.update (Message.FileOpened (Except.ok ("/tmp/b", "hi")))).1.error =
      some (Error.IOFailed ErrorKind.notFound) := by
  decide

/-- C3 (amended): reducing FileOpened(Ok(p, s)) yields path = some p,
content whose full text equals s, is_dirty = false, theme unchanged and
ERROR UNCHANGED (the source does not clear it), emitting no command. -/
theorem C3_theorem (m : Editor) (p s : String) :
    (m.update (Message.FileOpened (Except.ok (p, s)))).1.path = some p ∧
    (m.update (Message.FileOpened (Except.ok (p, s)))).1.content.text = s ∧
    (m.update (Message.FileOpened (Except.ok (p, s)))).1.is_dirty = false ∧
    (m.update (Message.FileOpened (Except.ok (p, s)))).1.error = m.error ∧
    (m.update (Message.FileOpened (Except.ok (p, s)))).1.theme = m.theme ∧
    (m.update (Message.FileOpened (Except.ok (p, s)))).2 = none :=
  ⟨rfl, rfl, rfl, rfl, rfl, rfl⟩

/-- C4 counterexample: the claim says FileSaved(Ok) clears any previously
stored error. Starting from a model whose error field holds IOFailed,
the source's Ok arm never touches the error field, so it stays set. -/
theorem C4_counterexample :
    (dirtyErrModel.update (Message.FileSaved (Except.ok "/tmp/a"))).1.error =
      some (Error.IOFailed ErrorKind.permissionDenied) := by
  decide

/-- C4 (amended): reducing FileSaved(Ok(p)) yields path = some p,
is_dirty = false, content and theme unchanged and ERROR UNCHANGED (the
source does not clear it), emitting no command. -/
theorem C4_theorem (m : Editor) (p : String) :
    (m.update (Message.FileSaved (Except.ok p))).1.path = some p ∧
    (m.update (Message.FileSaved (Except.ok p))).1.is_dirty = false ∧
    (m.update (Message.FileSaved (Except.ok p))).1.error = m.error ∧
    (m.update (Message.FileSaved (Except.ok p))).1.content = m.content ∧
    (m.update (Message.FileSaved (Except.ok p))).1.theme = m.theme ∧
    (m.update (Message.FileSaved (Except.ok p))).2 = none :=
  ⟨rfl, rfl, rfl, rfl, rfl, rfl⟩

/-- C5: reducing Edit(a) applies a to the content buffer, clears error,
emits no command, and updates is_dirty to is_dirty OR is_edit(a): so a
content-modifying action always dirties, and a cursor-move or selection
action on a clean model leaves it clean. -/
theorem C5_theorem (m : Editor) (a : Action) :
    (m.update (Message.Edit a)).1.content = m.content.edit a ∧
    (m.update (Message.Edit a)).1.error = none ∧
    (m.update (Message.Edit a)).1.is_dirty = (m.is_dirty || a.is_edit) ∧
    (m.update (Message.Edit a)).2 = none ∧
    (a.is_edit = true → (m.update (Message.Edit a)).1.is_dirty = true) ∧
    (m.is_dirty = false → a.is_edit = false →
      (m.update (Message.Edit a)).1.is_dirty = false) := by
  refine ⟨rfl, rfl, rfl, rfl, ?_, ?_⟩
  · intro h
    simp [Editor.update, h]
  · intro h1 h2
    simp [Editor.update, h1, h2]

/-- C5 witness: a cursor move on a concrete clean model leaves it clean. -/
theorem C5_witness :
    (cleanModel.update (Message.Edit (Action.Move Motion.Left))).1.is_dirty = false :=
  (C5_theorem cleanModel (Action.Move Motion.Left)).2.2.2.2.2 rfl rfl

/-- C6 counterexample: the claim says the highlighter extension is the
LOWERCASED final extension of the path. The source applies no case
change: for path notes.RS the configuration's extension is the literal
RS, while the lowercased form the claim demands is rs. -/
theorem C6_counterexample :
    highlightExtension upperModel = "RS" ∧
    specHighlightExtension upperModel = "rs" ∧
    highlightExtension upperModel ≠ specHighlightExtension upperModel := by
  decide

/-- C6 (amended): the highlighter configuration pairs the selected theme
with an extension equal to the final extension of path EXACTLY AS WRITTEN
(no lowercasing) when path is present and has an extension, and to the
literal rs fallback otherwise (in particular whenever path is absent). -/
theorem C6_theorem (m : Editor) :
    (highlightSettings m).1 = m.theme ∧
    (highlightSettings m).2 = highlightExtension m ∧
    (m.path = none → highlightExtension m = "rs") ∧
    (∀ p, m.path = some p → extension p = none → highlightExtension m = "rs") ∧
    (∀ p e, m.path = some p → extension p = some e → highlightExtension m = e) := by
  refine ⟨rfl, rfl, ?_, ?_, ?_⟩
  · intro h
    simp [highlightExtension, h]
  · intro p hp he
    simp [highlightExtension, hp, he]
  · intro p e hp he
    simp [highlightExtension, hp, he]

/-- C6 witness: concrete instances of the amended claim, one per branch:
a markdown path yields md, no path yields the rs fallback. -/
theorem C6_witness :
    highlightExtension mdModel = "md" ∧
    highlightExtension cleanModel = "rs" :=
  ⟨(C6_theorem mdModel).2.2.2.2 "/tmp/a.md" "md" rfl (by decide),
   (C6_theorem cleanModel).2.2.1 rfl⟩

/-- C7: reducing New yields no path, the empty buffer, is_dirty = true,
error and theme unchanged, and no command. -/
theorem C7_theorem (m : Editor) :
    (m.update Message.New).1.path = none ∧
    (m.update Message.New).1.content = Content.new ∧
    (m.update Message.New).1.content.text = "" ∧
    (m.update Message.New).1.is_dirty = true ∧
    (m.update Message.New).1.error = m.error ∧
    (m.update Message.New).1.theme = m.theme ∧
    (m.update Message.New).2 = none :=
  ⟨rfl, rfl, rfl, rfl, rfl, rfl, rfl⟩

/-- C8: reducing FileOpened(Err(IoFailed(k))) sets the error field to
IOFailed k and leaves every other field (path, content, is_dirty, theme)
unchanged, emitting no command. -/
theorem C8_theorem (m : Editor) (k : ErrorKind) :
    (m.update (Message.FileOpened (Except.error (Error.IOFailed k)))).1 =
      { m with error := some (Error.IOFailed k) } ∧
    (m.update (Message.FileOpened (Except.error (Error.IOFailed k)))).1.path = m.path ∧
    (m.update (Message.FileOpened (Except.error (Error.IOFailed k)))).1.content = m.content ∧
    (m.update (Message.FileOpened (Except.error (Error.IOFailed k)))).1.is_dirty = m.is_dirty ∧
    (m.update (Message.FileOpened (Except.error (Error.IOFailed k)))).1.theme = m.theme ∧
    (m.update (Message.FileOpened (Except.error (Error.IOFailed k)))).2 = none :=
  ⟨rfl, rfl, rfl, rfl, rfl, rfl⟩

/-- C9: the status bar's left side shows the error text whenever the
stored error is an IOFailed error, even when a path is bound; otherwise
the path string when a path is bound; otherwise the new-file caption. -/
theorem C9_theorem (m : Editor) :
    (∀ k, m.error = some (Error.IOFailed k) → statusLeft m = StatusDisplay.errorText k) ∧
    ((∀ k, m.error ≠ some (Error.IOFailed k)) →
      ∀ p, m.path = some p → statusLeft m = StatusDisplay.pathText p) ∧
    ((∀ k, m.error ≠ some (Error.IOFailed k)) →
      m.path = none → statusLeft m = StatusDisplay.newFile) := by
  refine ⟨?_, ?_, ?_⟩
  · intro k hk
    simp [statusLeft, hk]
  · intro hno p hp
    cases h : m.error with
    | none => simp [statusLeft, h, hp]
    | some e =>
        cases e with
        | DialogClosed => simp [statusLeft, h, hp]
        | IOFailed k => exact absurd h (hno k)
  · intro hno hp
    cases h : m.error with
    | none => simp [statusLeft, h, hp]
    | some e =>
        cases e with
        | DialogClosed => simp [statusLeft, h, hp]
        | IOFailed k => exact absurd h (hno k)

/-- C9 witness: with an IOFailed error and a bound path the status bar
shows the error text; with no error and the same path it shows the path. -/
theorem C9_witness :
    statusLeft errModel = StatusDisplay.errorText ErrorKind.notFound ∧
    statusLeft mdModel = StatusDisplay.pathText "/tmp/a.md" :=
  ⟨(C9_theorem errModel).1 ErrorKind.notFound rfl,
   (C9_theorem mdModel).2.1 (fun _ h => Option.noConfusion h) "/tmp/a.md" rfl⟩

/-- C10: the startup model has no path, empty content, no error, the
SolarizedDark theme and is_dirty = true, with the save button enabled,
and the startup command loads the default file; any FileOpened error
completion (for instance a failed startup load) keeps the model dirty
with an empty unnamed buffer and the save button enabled. -/
theorem C10_theorem :
    Editor.init.1.path = none ∧
    Editor.init.1.content.text = "" ∧
    Editor.init.1.error = none ∧
    Editor.init.1.theme = HTheme.SolarizedDark ∧
    Editor.init.1.is_dirty = true ∧
    saveEnabled Editor.init.1 = true ∧
    Editor.init.2 = some (Command.loadFile defaultFile) ∧
    (∀ e : Error,
      (Editor.init.1.update (Message.FileOpened (Except.error e))).1.is_dirty = true ∧
      (Editor.init.1.update (Message.FileOpened (Except.error e))).1.path = none ∧
      (Editor.init.1.update (Message.FileOpened (Except.error e))).1.content.text = "" ∧
      saveEnabled (Editor.init.1.update (Message.FileOpened (Except.error e))).1 = true) :=
  ⟨rfl, rfl, rfl, rfl, rfl, rfl, rfl, fun _ => ⟨rfl, rfl, rfl, rfl⟩⟩

end IcedNote
